import Mathlib

/-!
Verification of the CryptoScope core (src/main.py): the indicator engine
`calculate_technical_indicators` and the signal scorer
`calculate_investment_signal`, shallowly embedded in Lean 4.

Numbers are modelled as rationals (Python floats carry exact decimal inputs in
all scenarios considered here), scores as integers, Python dictionaries with
possibly-missing keys as `Option`-valued record fields, and Python exceptions
as an explicit `Except` result: `KeyError` from a `[...]` subscript on a
missing key, `TypeError` from comparing `None` with a number.
-/

namespace CryptoScope

/-! ## String containment (Python's `in` operator on strings) -/

/-- Whether the character list `pat` occurs at the start of `l`. -/
def startsWithChars : List Char → List Char → Bool
  | [], _ => true
  | _ :: _, [] => false
  | a :: as, b :: bs => a == b && startsWithChars as bs

/-- Whether the character list `pat` occurs contiguously anywhere in `l`. -/
def containsSub (pat : List Char) : List Char → Bool
  | [] => pat.isEmpty
  | b :: bs => startsWithChars pat (b :: bs) || containsSub pat bs

/-- Python's `pat in s` substring test. -/
def strIn (pat s : String) : Bool :=
  containsSub pat.toList s.toList

/-! ## ANSI color constants (class Colors, src/main.py lines 19-40) -/

namespace Colors

def RED : String := "\x1b[31m"

def BOLD : String := "\x1b[1m"

def DIM : String := "\x1b[2m"

def BRIGHT_RED : String := "\x1b[91m"

def BRIGHT_GREEN : String := "\x1b[92m"

def BRIGHT_YELLOW : String := "\x1b[93m"

end Colors

/-! ## Data model -/

/-- The `market_data` sub-dictionary of one CoinGecko coin response, restricted
to the keys read by `calculate_investment_signal`.  An outer `none` means the
key is absent from the dictionary.  `current_price`, `market_cap` and
`total_volume` are themselves dictionaries whose `usd` key may be absent,
hence the nested `Option`. -/
structure MarketData where
  price_change_percentage_24h : Option ℚ
  price_change_percentage_7d : Option ℚ
  price_change_percentage_30d : Option ℚ
  current_price : Option (Option ℚ)
  market_cap : Option (Option ℚ)
  total_volume : Option (Option ℚ)
  deriving DecidableEq

/-- One CoinGecko coin response, restricted to the keys read by
`calculate_investment_signal`: the `market_data` dictionary (accessed with a
faulting `data['market_data']` subscript) and `market_cap_rank` (accessed with
a defaulting `.get`). -/
structure CoinData where
  market_data : Option MarketData
  market_cap_rank : Option ℤ
  deriving DecidableEq

/-- The indicator dictionary produced by `calculate_technical_indicators`:
each value is a float or Python `None` (insufficient history). -/
structure Indicators where
  sma_7 : Option ℚ
  sma_25 : Option ℚ
  sma_99 : Option ℚ
  rsi : Option ℚ
  macd : Option ℚ
  macd_signal : Option ℚ
  macd_diff : Option ℚ
  deriving DecidableEq

/-- The dictionary returned by `calculate_investment_signal`. -/
structure Signal where
  recommendation : String
  confidence : ℤ
  color : String
  price_24h : ℚ
  price_7d : ℚ
  volume_ratio : ℚ
  future_outlook : String
  deriving DecidableEq

/-- Python exceptions that the embedded scorer can raise internally. -/
inductive PyErr where
  | keyError : PyErr
  | typeError : PyErr
  deriving DecidableEq

/-! ## Indicator engine (`calculate_technical_indicators`, lines 242-266)

The availability structure (`... if len(close_prices) >= n else None`) is
transcribed from the source.  The numeric values come from the external `ta`
library, whose code is not part of this repository; they are modelled from the
spec's descriptions (simple moving average, gains/losses RSI, EMA-based MACD)
and no claim depends on them. -/

/-- Arithmetic mean of the most recent `w` prices
(models `ta.trend.sma_indicator(close, window=w).iloc[-1]`). -/
def smaLast (l : List ℚ) (w : ℕ) : ℚ :=
  (l.drop (l.length - w)).sum / (w : ℚ)

/-- Modelled from the spec: standard RSI over the most recent `w+1` prices,
average gains over average losses scaled through 100 - 100/(1+RS)
(models `ta.momentum.rsi(close, window=w).iloc[-1]`, external library). -/
def rsiLast (l : List ℚ) (w : ℕ) : ℚ :=
  let recent := l.drop (l.length - (w + 1))
  let deltas := (recent.zip recent.tail).map (fun p => p.2 - p.1)
  let avgGain := (deltas.map (fun d => max d 0)).sum / (w : ℚ)
  let avgLoss := (deltas.map (fun d => max (-d) 0)).sum / (w : ℚ)
  if avgLoss = 0 then 100 else 100 - 100 / (1 + avgGain / avgLoss)

/-- One step of an exponential moving average with smoothing factor `alpha`. -/
def emaStep (alpha prev x : ℚ) : ℚ :=
  alpha * x + (1 - alpha) * prev

/-- Modelled from the spec: the running EMA values of a series with span
`span` (smoothing factor 2/(span+1)), seeded at the first price. -/
def emaList (span : ℕ) (l : List ℚ) : List ℚ :=
  match l with
  | [] => []
  | x :: xs => List.scanl (fun prev y => emaStep ((2 : ℚ) / ((span : ℚ) + 1)) prev y) x xs

/-- Modelled from the spec: the MACD line series, EMA(12) minus EMA(26). -/
def macdList (l : List ℚ) : List ℚ :=
  List.zipWith (fun a b => a - b) (emaList 12 l) (emaList 26 l)

/-- Last value of the MACD line (models `ta.trend.macd(close).iloc[-1]`). -/
def macdLast (l : List ℚ) : ℚ :=
  (macdList l).getLastD 0

/-- Last value of the MACD signal line, EMA(9) of the MACD line
(models `ta.trend.macd_signal(close).iloc[-1]`). -/
def macdSignalLast (l : List ℚ) : ℚ :=
  (emaList 9 (macdList l)).getLastD 0

/-- Last value of the MACD histogram, MACD minus signal
(models `ta.trend.macd_diff(close).iloc[-1]`). -/
def macdDiffLast (l : List ℚ) : ℚ :=
  macdLast l - macdSignalLast l

/-- Embedding of `calculate_technical_indicators` (src/main.py lines 242-266).
The input is the historical price DataFrame reduced to its chronological
`price` column; `none` models a `None` DataFrame. -/
def calculate_technical_indicators (historical_df : Option (List ℚ)) : Option Indicators :=
  match historical_df with
  | none => none
  | some close_prices =>
    if close_prices.isEmpty then none
    else some
      { sma_7 := if 7 ≤ close_prices.length then some (smaLast close_prices 7) else none
        sma_25 := if 25 ≤ close_prices.length then some (smaLast close_prices 25) else none
        sma_99 := if 99 ≤ close_prices.length then some (smaLast close_prices 99) else none
        rsi := if 14 ≤ close_prices.length then some (rsiLast close_prices 14) else none
        macd := if 26 ≤ close_prices.length then some (macdLast close_prices) else none
        macd_signal := if 26 ≤ close_prices.length then some (macdSignalLast close_prices) else none
        macd_diff := if 26 ≤ close_prices.length then some (macdDiffLast close_prices) else none }

/-! ## Signal scorer (`calculate_investment_signal`, lines 268-406) -/

/-- Python truthiness of a float-or-None value: `None` and `0.0` are falsy. -/
def truthy (o : Option ℚ) : Prop :=
  o ≠ none ∧ o ≠ some 0

instance (o : Option ℚ) : Decidable (truthy o) :=
  inferInstanceAs (Decidable (o ≠ none ∧ o ≠ some 0))

/-- The numeric value of an indicator entry; only read under a `truthy` or
not-`None` guard, mirroring Python's short-circuit evaluation. -/
def oval (o : Option ℚ) : ℚ :=
  o.getD 0

/-- RSI scoring rule (lines 316-329). -/
def rsiStage (rsi : Option ℚ) (score : ℤ) (fo : String) : ℤ × String :=
  match rsi with
  | none => (score, fo)
  | some r =>
    if r > 70 then
      (score - 10, "Potentially overbought, short-term pullback possible.")
    else if r < 30 then
      (score + 10, "Potentially oversold, short-term bounce possible.")
    else if 50 ≤ r ∧ r ≤ 70 then
      (score + 5, if fo = "Neutral outlook." then "Positive momentum in play." else fo)
    else if 30 < r ∧ r < 50 then
      (score - 5, if fo = "Neutral outlook." then "Weak momentum or downward pressure." else fo)
    else (score, fo)

/-- Short-term versus mid-term moving-average rule (lines 337-346); the SMA
operands are gated on truthiness (`sma_7 and sma_25 and ...`). -/
def smaStage1 (current_close : ℚ) (sma_7 sma_25 : Option ℚ) (score : ℤ) (fo : String) :
    ℤ × String :=
  if truthy sma_7 ∧ truthy sma_25 ∧ current_close > oval sma_7 ∧ oval sma_7 > oval sma_25 then
    (score + 10,
      if strIn "Neutral" fo then "Upward trend forming based on short/mid-term MAs."
      else if strIn "pullback" fo then fo
      else fo ++ " Strong short-term trend.")
  else if truthy sma_7 ∧ truthy sma_25 ∧ current_close < oval sma_7 ∧ oval sma_7 < oval sma_25 then
    (score - 10,
      if strIn "Neutral" fo then "Downward trend forming based on short/mid-term MAs."
      else if strIn "bounce" fo then fo
      else fo ++ " Strong short-term bearish trend.")
  else (score, fo)

/-- Mid-term versus long-term moving-average rule (lines 348-355). -/
def smaStage2 (sma_25 sma_99 : Option ℚ) (score : ℤ) (fo : String) : ℤ × String :=
  if truthy sma_25 ∧ truthy sma_99 ∧ oval sma_25 > oval sma_99 then
    (score + 5,
      if strIn "Upward trend" fo then fo ++ " Long-term trend is bullish."
      else if strIn "Neutral" fo then "Long-term bullish trend confirmed."
      else fo)
  else if truthy sma_25 ∧ truthy sma_99 ∧ oval sma_25 < oval sma_99 then
    (score - 5,
      if strIn "Downward trend" fo then fo ++ " Long-term trend is bearish."
      else if strIn "Neutral" fo then "Long-term bearish trend observed."
      else fo)
  else (score, fo)

/-- MACD rule (lines 359-371).  The outer gate is `is not None`, so a zero
MACD value still enters.  `macd_diff` is only compared after the first
comparison succeeds (Python short-circuit); comparing a `None` histogram with
`0` raises `TypeError`. -/
def macdStage (macd macd_signal macd_diff : Option ℚ) (score : ℤ) (fo : String) :
    Except PyErr (ℤ × String) :=
  match macd, macd_signal with
  | some m, some ms =>
    if m > ms then
      match macd_diff with
      | none => Except.error PyErr.typeError
      | some d =>
        if d > 0 then
          Except.ok (score + 8,
            if strIn "Neutral" fo then "Increasing bullish momentum."
            else fo ++ " Momentum is strengthening.")
        else Except.ok (score, fo)
    else if m < ms then
      match macd_diff with
      | none => Except.error PyErr.typeError
      | some d =>
        if d < 0 then
          Except.ok (score - 8,
            if strIn "Neutral" fo then "Increasing bearish momentum."
            else fo ++ " Momentum is weakening.")
        else Except.ok (score, fo)
    else Except.ok (score, fo)
  | _, _ => Except.ok (score, fo)

/-- Final clamp, recommendation thresholds and result construction
(lines 373-397).  The clamp `max(10, min(100, score))` and the single
threshold chain are applied identically whether or not indicators were
supplied. -/
def finishSignal (score : ℤ) (fo : String) (price_24h price_7d volume_ratio : ℚ) : Signal :=
  let clamped := max 10 (min 100 score)
  if clamped ≥ 80 then
    ⟨"STRONG BUY", clamped, Colors.BRIGHT_GREEN ++ Colors.BOLD, price_24h, price_7d, volume_ratio, fo⟩
  else if clamped ≥ 65 then
    ⟨"BUY", clamped, Colors.BRIGHT_GREEN, price_24h, price_7d, volume_ratio, fo⟩
  else if clamped ≥ 45 then
    ⟨"HOLD", clamped, Colors.BRIGHT_YELLOW, price_24h, price_7d, volume_ratio, fo⟩
  else if clamped ≥ 25 then
    ⟨"WAIT", clamped, Colors.BRIGHT_YELLOW ++ Colors.DIM, price_24h, price_7d, volume_ratio, fo⟩
  else
    ⟨"AVOID", clamped, Colors.BRIGHT_RED ++ Colors.BOLD, price_24h, price_7d, volume_ratio, fo⟩

/-- The body of the `try` block of `calculate_investment_signal`
(lines 273-397): either the computed Signal or the Python exception that
escaped the block. -/
def calcCore (data : CoinData) (indicators : Option Indicators) : Except PyErr Signal :=
  match data.market_data with
  | none => Except.error PyErr.keyError
  | some market_data =>
    let price_24h := market_data.price_change_percentage_24h.getD 0
    let price_7d := market_data.price_change_percentage_7d.getD 0
    let price_30d := market_data.price_change_percentage_30d.getD 0
    let market_cap_rank := data.market_cap_rank.getD 9999
    match market_data.current_price with
    | none => Except.error PyErr.keyError
    | some current_price_usd =>
      let current_price := current_price_usd.getD 0
      let market_cap := (market_data.market_cap.getD none).getD 0
      let total_volume := (market_data.total_volume.getD none).getD 0
      let volume_ratio := if market_cap > 0 then total_volume / market_cap * 100 else 0
      let score : ℤ := 50
      let future_outlook := "Neutral outlook."
      let score :=
        if price_24h > 5 then score + 15
        else if price_24h > 0 then score + 5
        else if price_24h < -10 then score - 20
        else if price_24h < -5 then score - 10
        else score
      let score :=
        if price_7d > 10 then score + 10
        else if price_7d > 0 then score + 3
        else if price_7d < -15 then score - 15
        else if price_7d < -5 then score - 8
        else score
      let score :=
        if price_30d > 20 then score + 8
        else if price_30d < -30 then score - 12
        else score
      let score :=
        if market_cap_rank ≤ 10 then score + 10
        else if market_cap_rank ≤ 50 then score + 5
        else if market_cap_rank > 200 then score - 5
        else score
      let score :=
        if volume_ratio > 15 then score + 8
        else if volume_ratio < 2 then score - 10
        else score
      match indicators with
      | none => Except.ok (finishSignal score future_outlook price_24h price_7d volume_ratio)
      | some ind =>
        let current_close := current_price
        let sf1 := rsiStage ind.rsi score future_outlook
        let sf2 := smaStage1 current_close ind.sma_7 ind.sma_25 sf1.1 sf1.2
        let sf3 := smaStage2 ind.sma_25 ind.sma_99 sf2.1 sf2.2
        match macdStage ind.macd ind.macd_signal ind.macd_diff sf3.1 sf3.2 with
        | Except.error e => Except.error e
        | Except.ok sf4 => Except.ok (finishSignal sf4.1 sf4.2 price_24h price_7d volume_ratio)

/-- The sentinel returned by the `except KeyError` handler (lines 399-402). -/
def dataIncompleteSignal : Signal :=
  ⟨"DATA INCOMPLETE", 0, Colors.RED, 0, 0, 0, "Data error."⟩

/-- The sentinel returned by the `except Exception` handler (lines 403-406). -/
def errorSignal : Signal :=
  ⟨"ERROR", 0, Colors.RED, 0, 0, 0, "Calculation error."⟩

/-- Embedding of `calculate_investment_signal` (src/main.py lines 268-406):
the `try` body with its two exception handlers. -/
def calculate_investment_signal (data : CoinData) (indicators : Option Indicators) : Signal :=
  match calcCore data indicators with
  | Except.ok s => s
  | Except.error PyErr.keyError => dataIncompleteSignal
  | Except.error PyErr.typeError => errorSignal

/-- Spec-side definition (section 4.2 threshold table, indicator-aware
column): the recommendation as a step function of the clamped confidence. -/
def recommendationOf (c : ℤ) : String :=
  if c ≥ 80 then "STRONG BUY"
  else if c ≥ 65 then "BUY"
  else if c ≥ 45 then "HOLD"
  else if c ≥ 25 then "WAIT"
  else "AVOID"

/-- Replaces every absent snapshot field by its documented default: 0.0 for
the numeric fields (including the nested `usd` values) and 9999 for
`market_cap_rank`.  Structurally missing dictionaries (`market_data`,
`current_price`) are left absent. -/
def fillDefaults (d : CoinData) : CoinData :=
  { market_data := d.market_data.map (fun md =>
      { price_change_percentage_24h := some (md.price_change_percentage_24h.getD 0)
        price_change_percentage_7d := some (md.price_change_percentage_7d.getD 0)
        price_change_percentage_30d := some (md.price_change_percentage_30d.getD 0)
        current_price := md.current_price.map (fun cp => some (cp.getD 0))
        market_cap := some (some ((md.market_cap.getD none).getD 0))
        total_volume := some (some ((md.total_volume.getD none).getD 0)) })
    market_cap_rank := some (d.market_cap_rank.getD 9999) }

/-! ## Shared helper lemmas -/

theorem finishSignal_confidence (raw : ℤ) (fo : String) (a b c : ℚ) :
    (finishSignal raw fo a b c).confidence = max 10 (min 100 raw) := by
  simp only [finishSignal]
  split
  · rfl
  split
  · rfl
  split
  · rfl
  split
  · rfl
  rfl

theorem finishSignal_recommendation (raw : ℤ) (fo : String) (a b c : ℚ) :
    (finishSignal raw fo a b c).recommendation = recommendationOf (max 10 (min 100 raw)) := by
  simp only [finishSignal, recommendationOf]
  split
  · rfl
  split
  · rfl
  split
  · rfl
  split
  · rfl
  rfl

theorem finishSignal_outlook (raw : ℤ) (fo : String) (a b c : ℚ) :
    (finishSignal raw fo a b c).future_outlook = fo := by
  simp only [finishSignal]
  split
  · rfl
  split
  · rfl
  split
  · rfl
  split
  · rfl
  rfl

theorem finishSignal_volume (raw : ℤ) (fo : String) (a b c : ℚ) :
    (finishSignal raw fo a b c).volume_ratio = c := by
  simp only [finishSignal]
  split
  · rfl
  split
  · rfl
  split
  · rfl
  split
  · rfl
  rfl

/-- Inversion of a successful run of the scorer: the result is always built by
`finishSignal` from some raw score and outlook, with the echoed percentages
and the guarded volume ratio taken from the snapshot. -/
theorem calcCore_ok_inv (d : CoinData) (i : Option Indicators) (s : Signal)
    (h : calcCore d i = Except.ok s) :
    ∃ raw fo md, d.market_data = some md ∧
      s = finishSignal raw fo (md.price_change_percentage_24h.getD 0)
            (md.price_change_percentage_7d.getD 0)
            (if ((md.market_cap.getD none).getD 0 : ℚ) > 0
             then (md.total_volume.getD none).getD 0 / (md.market_cap.getD none).getD 0 * 100
             else 0) := by
  rcases hmd : d.market_data with _ | md
  · simp only [calcCore, hmd] at h
    exact Except.noConfusion h
  · simp only [calcCore, hmd] at h
    rcases hcp : md.current_price with _ | cp
    · simp only [hcp] at h
      exact Except.noConfusion h
    · simp only [hcp] at h
      rcases i with _ | ind
      · simp only [Except.ok.injEq] at h
        exact ⟨_, _, md, rfl, h.symm⟩
      · simp only [] at h
        split at h
        · exact Except.noConfusion h
        · simp only [Except.ok.injEq] at h
          exact ⟨_, _, md, rfl, h.symm⟩

/-! ## Concrete inputs used by examples, counterexamples and witnesses -/

/-- The snapshot of the spec's worked example: 24h +6%, 7d +12%, 30d +25%,
volume 20 against market cap 100 (a 20% ratio). -/
def exampleMd : MarketData :=
  { price_change_percentage_24h := some 6
    price_change_percentage_7d := some 12
    price_change_percentage_30d := some 25
    current_price := some (some 1)
    market_cap := some (some 100)
    total_volume := some (some 20) }

/-- The spec's worked example coin: the snapshot above at rank 5. -/
def exampleData : CoinData := { market_data := some exampleMd, market_cap_rank := some 5 }

/-- A snapshot engineered to score exactly 75 without indicators:
+15 (24h +6%) and +10 (7d +12%), everything else neutral (rank 100,
volume ratio 10%). -/
def boundaryMd : MarketData :=
  { price_change_percentage_24h := some 6
    price_change_percentage_7d := some 12
    price_change_percentage_30d := some 0
    current_price := some (some 1)
    market_cap := some (some 100)
    total_volume := some (some 10) }

/-- The boundary snapshot at rank 100. -/
def boundaryData : CoinData := { market_data := some boundaryMd, market_cap_rank := some 100 }

/-- A coin response whose every optional field is absent (the `current_price`
dictionary is present but has no `usd` key). -/
def bareMd : MarketData :=
  { price_change_percentage_24h := none
    price_change_percentage_7d := none
    price_change_percentage_30d := none
    current_price := some none
    market_cap := none
    total_volume := none }

/-- The bare coin response: `market_data` present, everything in it absent. -/
def bareData : CoinData := { market_data := some bareMd, market_cap_rank := none }

/-- An indicator dictionary with every value `None`. -/
def emptyInd : Indicators :=
  { sma_7 := none, sma_25 := none, sma_99 := none, rsi := none
    macd := none, macd_signal := none, macd_diff := none }

/-- Indicators whose only value is an RSI of exactly 0.0. -/
def rsiZeroInd : Indicators := { emptyInd with rsi := some 0 }

/-- Indicators whose MACD line is exactly 0.0 above a negative signal line. -/
def macdZeroInd : Indicators :=
  { emptyInd with macd := some 0, macd_signal := some (-1), macd_diff := some 1 }

/-- Indicators whose MACD comparison forces the `None` histogram to be
compared with 0, the in-scope `TypeError` source. -/
def faultyInd : Indicators := { emptyInd with macd := some 1, macd_signal := some 0 }

/-! ## Claim theorems, counterexamples and witnesses -/

/-- C1: For every snapshot and indicator input that completes scoring without a
fault, the confidence is clamped to [10, 100] (amended: the code applies
`max(10, min(100, score))` on both paths, so the ceiling is 100 even without
indicators); the spec's worked example (24h +6%, 7d +12%, 30d +25%, rank 5,
volume ratio 20%, no indicators) reaches a raw score of 101 and is returned
with confidence 100 and recommendation STRONG BUY. -/
theorem c1_clamp_bounds :
    (∀ (d : CoinData) (i : Option Indicators) (s : Signal), calcCore d i = Except.ok s →
      10 ≤ s.confidence ∧ s.confidence ≤ 100) ∧
    (calculate_investment_signal exampleData none).confidence = 100 ∧
    (calculate_investment_signal exampleData none).recommendation = "STRONG BUY" := by
  refine ⟨fun d i s h => ?_, ?_, ?_⟩
  · obtain ⟨raw, fo, md, hmd, hs⟩ := calcCore_ok_inv d i s h
    rw [hs, finishSignal_confidence]
    omega
  · norm_num [calculate_investment_signal, calcCore, exampleData, exampleMd, finishSignal]
  · norm_num [calculate_investment_signal, calcCore, exampleData, exampleMd, finishSignal]

theorem c1_witness :
    10 ≤ (calculate_investment_signal exampleData none).confidence ∧
    (calculate_investment_signal exampleData none).confidence ≤ 100 :=
  c1_clamp_bounds.1 exampleData none (calculate_investment_signal exampleData none)
    (by norm_num [calculate_investment_signal, calcCore, exampleData, exampleMd, finishSignal])

/-- C1 counterexample: on the claim's own example input (no indicators) the
returned confidence is 100, not 95, so the [10, 95] no-indicator ceiling the
claim asserts does not exist in the code. -/
theorem c1_counterexample :
    (calculate_investment_signal exampleData none).confidence = 100 ∧
    ¬ (calculate_investment_signal exampleData none).confidence ≤ 95 := by
  norm_num [calculate_investment_signal, calcCore, exampleData, exampleMd, finishSignal]

/-- C2 (amended): for every non-sentinel Signal the recommendation is the
deterministic step function of the clamped confidence given by the single
threshold table ≥80 STRONG BUY / ≥65 BUY / ≥45 HOLD / ≥25 WAIT / else AVOID,
applied identically whether or not indicators were used; it is never set
independently of the confidence. -/
theorem c2_single_table :
    ∀ (d : CoinData) (i : Option Indicators) (s : Signal), calcCore d i = Except.ok s →
      s.recommendation = recommendationOf s.confidence := by
  intro d i s h
  obtain ⟨raw, fo, md, hmd, hs⟩ := calcCore_ok_inv d i s h
  rw [hs, finishSignal_recommendation, finishSignal_confidence]

theorem c2_witness :
    (calculate_investment_signal boundaryData none).recommendation =
      recommendationOf (calculate_investment_signal boundaryData none).confidence :=
  c2_single_table boundaryData none (calculate_investment_signal boundaryData none)
    (by norm_num [calculate_investment_signal, calcCore, boundaryData, boundaryMd, finishSignal])

/-- C2 counterexample: a snapshot scoring exactly 75 without indicators is
returned as BUY, not STRONG BUY, refuting the claim's separate no-indicator
table (≥75 STRONG BUY, ≥60 BUY, ≥40 HOLD). -/
theorem c2_counterexample :
    (calculate_investment_signal boundaryData none).confidence = 75 ∧
    (calculate_investment_signal boundaryData none).recommendation = "BUY" ∧
    (calculate_investment_signal boundaryData none).recommendation ≠ "STRONG BUY" := by
  refine ⟨?_, ?_, ?_⟩
  · norm_num [calculate_investment_signal, calcCore, boundaryData, boundaryMd, finishSignal]
  · norm_num [calculate_investment_signal, calcCore, boundaryData, boundaryMd, finishSignal]
  · norm_num [calculate_investment_signal, calcCore, boundaryData, boundaryMd, finishSignal]
    decide

/-- C3: the scorer never raises past its boundary: a structurally missing
`market_data` yields the complete DATA INCOMPLETE sentinel with confidence 0,
any other computation fault yields the complete ERROR sentinel with
confidence 0, and every run returns either the fully computed Signal or one
of those two complete sentinels. -/
theorem c3_sentinels :
    (∀ (d : CoinData) (i : Option Indicators), d.market_data = none →
      calculate_investment_signal d i = dataIncompleteSignal) ∧
    (∀ (d : CoinData) (i : Option Indicators) (e : PyErr), calcCore d i = Except.error e →
      e ≠ PyErr.keyError → calculate_investment_signal d i = errorSignal) ∧
    (∀ (d : CoinData) (i : Option Indicators),
      (∃ s, calcCore d i = Except.ok s ∧ calculate_investment_signal d i = s) ∨
      calculate_investment_signal d i = dataIncompleteSignal ∨
      calculate_investment_signal d i = errorSignal) := by
  refine ⟨fun d i h => ?_, fun d i e h he => ?_, fun d i => ?_⟩
  · simp [calculate_investment_signal, calcCore, h]
  · rcases e with _ | _
    · exact absurd rfl he
    · simp [calculate_investment_signal, h]
  · rcases hc : calcCore d i with e | s
    · rcases e with _ | _
      · right; left; simp [calculate_investment_signal, hc]
      · right; right; simp [calculate_investment_signal, hc]
    · refine Or.inl ⟨s, rfl, ?_⟩
      simp [calculate_investment_signal, hc]

theorem c3_witness :
    calculate_investment_signal ⟨none, none⟩ none = dataIncompleteSignal ∧
    calculate_investment_signal bareData (some faultyInd) = errorSignal := by
  constructor
  · exact c3_sentinels.1 ⟨none, none⟩ none rfl
  · refine c3_sentinels.2.1 bareData (some faultyInd) PyErr.typeError ?_ (by simp)
    norm_num [calcCore, bareData, bareMd, faultyInd, emptyInd, rsiStage, smaStage1, smaStage2,
      macdStage, truthy]

/-- With no indicator argument, a failed scorer run can only come from a
structurally missing `market_data` or `current_price` dictionary. -/
theorem calcCore_none_error_inv (d : CoinData) (e : PyErr)
    (h : calcCore d none = Except.error e) :
    d.market_data = none ∨ ∃ md, d.market_data = some md ∧ md.current_price = none := by
  rcases hmd : d.market_data with _ | md
  · exact Or.inl rfl
  · simp only [calcCore, hmd] at h
    rcases hcp : md.current_price with _ | cp
    · exact Or.inr ⟨md, rfl, hcp⟩
    · simp only [hcp] at h
      exact Except.noConfusion h

/-- C4: absent numeric snapshot fields are tolerated and replaced by their
documented defaults (0.0 for the float fields, 9999 for the rank): filling
the defaults in explicitly never changes the result, and whenever the two
structurally required dictionaries are present the scorer completes normally
with a non-sentinel Signal. -/
theorem c4_defaults :
    (∀ d : CoinData,
      calculate_investment_signal d none = calculate_investment_signal (fillDefaults d) none) ∧
    (∀ (d : CoinData) (md : MarketData), d.market_data = some md → md.current_price ≠ none →
      ∃ s, calcCore d none = Except.ok s) := by
  constructor
  · intro d
    rcases hmd : d.market_data with _ | md
    · simp [calculate_investment_signal, calcCore, fillDefaults, hmd]
    · rcases hcp : md.current_price with _ | cp
      · simp [calculate_investment_signal, calcCore, fillDefaults, hmd, hcp]
      · simp [calculate_investment_signal, calcCore, fillDefaults, hmd, hcp]
  · intro d md hmd hcp
    rcases hres : calcCore d none with e | s
    · rcases calcCore_none_error_inv d e hres with h1 | ⟨md2, hmd2, hcp2⟩
      · rw [hmd] at h1
        exact Option.noConfusion h1
      · rw [hmd] at hmd2
        obtain rfl : md = md2 := Option.some.inj hmd2
        exact absurd hcp2 hcp
    · exact ⟨s, rfl⟩

theorem c4_witness :
    (calculate_investment_signal bareData none =
      calculate_investment_signal (fillDefaults bareData) none) ∧
    ∃ s, calcCore bareData none = Except.ok s :=
  ⟨c4_defaults.1 bareData,
    c4_defaults.2 bareData bareMd rfl (by simp [bareMd])⟩

/-- C7: the scorer is deterministic: two runs on identical snapshot and
indicator inputs return identical Signals in every field (the embedding is a
pure function of its two arguments; the Python code reads no clock, random
source, I/O, or state shared between calls). -/
theorem c7_deterministic :
    ∀ (d1 d2 : CoinData) (i1 i2 : Option Indicators), d1 = d2 → i1 = i2 →
      calculate_investment_signal d1 i1 = calculate_investment_signal d2 i2 := by
  intro d1 d2 i1 i2 hd hi
  rw [hd, hi]

theorem c7_witness :
    calculate_investment_signal exampleData none = calculate_investment_signal exampleData none :=
  c7_deterministic exampleData exampleData none none rfl rfl

/-- C9: for every snapshot the returned volume ratio equals
totalVolume / marketCap * 100 exactly when marketCap > 0 and equals 0
whenever marketCap ≤ 0; the division sits under the marketCap > 0 guard, so
it is never evaluated with a non-positive divisor. -/
theorem c9_volume_ratio :
    ∀ (d : CoinData) (md : MarketData) (i : Option Indicators) (s : Signal),
      d.market_data = some md → calcCore d i = Except.ok s →
      s.volume_ratio = (if ((md.market_cap.getD none).getD 0 : ℚ) > 0
        then (md.total_volume.getD none).getD 0 / (md.market_cap.getD none).getD 0 * 100
        else 0) ∧
      (((md.market_cap.getD none).getD 0 : ℚ) ≤ 0 → s.volume_ratio = 0) := by
  intro d md i s hmd h
  obtain ⟨raw, fo, md2, hmd2, hs⟩ := calcCore_ok_inv d i s h
  rw [hmd] at hmd2
  obtain rfl : md = md2 := Option.some.inj hmd2
  constructor
  · rw [hs, finishSignal_volume]
  · intro hle
    rw [hs, finishSignal_volume, if_neg (by exact not_lt.mpr hle)]

theorem c9_witness :
    (calculate_investment_signal exampleData none).volume_ratio =
      (if ((exampleMd.market_cap.getD none).getD 0 : ℚ) > 0
        then (exampleMd.total_volume.getD none).getD 0 /
          (exampleMd.market_cap.getD none).getD 0 * 100
        else 0) ∧
    (((exampleMd.market_cap.getD none).getD 0 : ℚ) ≤ 0 →
      (calculate_investment_signal exampleData none).volume_ratio = 0) :=
  c9_volume_ratio exampleData exampleMd none (calculate_investment_signal exampleData none) rfl
    (by norm_num [calculate_investment_signal, calcCore, exampleData, exampleMd, finishSignal])


/-- Whether a given indicator field is available in the result of the
indicator engine; a missing dictionary counts as nothing available. -/
def availIn (o : Option Indicators) (f : Indicators → Option ℚ) : Bool :=
  match o with
  | none => false
  | some i => (f i).isSome

/-- C5 counterexample: on an empty price series (and on a null one) the
indicator engine returns no IndicatorSet at all (`None`), rather than an
IndicatorSet whose every field is unavailable as the claim states. -/
theorem c5_counterexample :
    calculate_technical_indicators (some ([] : List ℚ)) = none ∧
    calculate_technical_indicators none = none := by
  constructor <;> rfl

/-- C5 (amended): an empty or null PriceSeries yields no IndicatorSet at all
(the function returns None), while every non-empty series shorter than 7
points yields an IndicatorSet in which all seven indicator fields are
unavailable; both are normal returns, not faults. -/
theorem c5_short_series :
    (∀ l : List ℚ, l ≠ [] → l.length < 7 →
      calculate_technical_indicators (some l) = some emptyInd) ∧
    calculate_technical_indicators none = none ∧
    calculate_technical_indicators (some ([] : List ℚ)) = none := by
  refine ⟨fun l h1 h2 => ?_, rfl, rfl⟩
  have h7 : ¬ 7 ≤ l.length := by omega
  have h25 : ¬ 25 ≤ l.length := by omega
  have h99 : ¬ 99 ≤ l.length := by omega
  have h14 : ¬ 14 ≤ l.length := by omega
  have h26 : ¬ 26 ≤ l.length := by omega
  simp [calculate_technical_indicators, List.isEmpty_iff, h1, h7, h25, h99, h14, h26, emptyInd]

theorem c5_witness :
    ([1, 2, 3] : List ℚ) ≠ [] ∧ ([1, 2, 3] : List ℚ).length < 7 ∧
    calculate_technical_indicators (some ([1, 2, 3] : List ℚ)) = some emptyInd :=
  ⟨by simp, by simp, c5_short_series.1 [1, 2, 3] (by simp) (by simp)⟩

/-- C6: for every price series of length L the indicator engine makes sma7
available iff L ≥ 7, sma25 iff L ≥ 25, sma99 iff L ≥ 99, rsi14 iff L ≥ 14,
and each of macd, macdSignal and macdHist available iff L ≥ 26 — so the three
MACD fields are always all available or all unavailable together. -/
theorem c6_availability :
    ∀ l : List ℚ,
      availIn (calculate_technical_indicators (some l)) Indicators.sma_7 =
        decide (7 ≤ l.length) ∧
      availIn (calculate_technical_indicators (some l)) Indicators.sma_25 =
        decide (25 ≤ l.length) ∧
      availIn (calculate_technical_indicators (some l)) Indicators.sma_99 =
        decide (99 ≤ l.length) ∧
      availIn (calculate_technical_indicators (some l)) Indicators.rsi =
        decide (14 ≤ l.length) ∧
      availIn (calculate_technical_indicators (some l)) Indicators.macd =
        decide (26 ≤ l.length) ∧
      availIn (calculate_technical_indicators (some l)) Indicators.macd_signal =
        decide (26 ≤ l.length) ∧
      availIn (calculate_technical_indicators (some l)) Indicators.macd_diff =
        decide (26 ≤ l.length) := by
  intro l
  rcases l with _ | ⟨a, as⟩
  · simp [calculate_technical_indicators, availIn]
  · simp only [calculate_technical_indicators, List.isEmpty_cons, Bool.false_eq_true,
      if_false, availIn]
    refine ⟨?_, ?_, ?_, ?_, ?_, ?_, ?_⟩ <;> (split <;> rename_i h <;> simp at h ⊢ <;> omega)


theorem smaStage1_sma7_zero (cc : ℚ) (b : Option ℚ) (sc : ℤ) (fo : String) :
    smaStage1 cc (some 0) b sc fo = smaStage1 cc none b sc fo := by
  simp [smaStage1, truthy]

theorem smaStage1_sma25_zero (cc : ℚ) (a : Option ℚ) (sc : ℤ) (fo : String) :
    smaStage1 cc a (some 0) sc fo = smaStage1 cc a none sc fo := by
  simp [smaStage1, truthy]

theorem smaStage2_sma25_zero (b : Option ℚ) (sc : ℤ) (fo : String) :
    smaStage2 (some 0) b sc fo = smaStage2 none b sc fo := by
  simp [smaStage2, truthy]

theorem smaStage2_sma99_zero (a : Option ℚ) (sc : ℤ) (fo : String) :
    smaStage2 a (some 0) sc fo = smaStage2 a none sc fo := by
  simp [smaStage2, truthy]

/-- C10: the moving-average rules gate on Python truthiness of the SMA values,
so an SMA equal to exactly 0.0 is treated like an absent one and the
corresponding rule applies no adjustment (replacing `some 0` by `none` in
sma7, sma25 or sma99 never changes the output), while the RSI and MACD rules
gate on `is not None` only: an RSI of exactly 0.0 still fires the oversold
branch (+10, confidence 45 versus 35 without it) and a MACD line of exactly
0.0 still fires the bullish-momentum branch (+8, confidence 43). -/
theorem c10_truthiness :
    (∀ (d : CoinData) (ind : Indicators),
      calculate_investment_signal d (some { ind with sma_7 := some 0 }) =
        calculate_investment_signal d (some { ind with sma_7 := none })) ∧
    (∀ (d : CoinData) (ind : Indicators),
      calculate_investment_signal d (some { ind with sma_25 := some 0 }) =
        calculate_investment_signal d (some { ind with sma_25 := none })) ∧
    (∀ (d : CoinData) (ind : Indicators),
      calculate_investment_signal d (some { ind with sma_99 := some 0 }) =
        calculate_investment_signal d (some { ind with sma_99 := none })) ∧
    ((calculate_investment_signal bareData (some rsiZeroInd)).confidence = 45 ∧
      (calculate_investment_signal bareData (some rsiZeroInd)).future_outlook =
        "Potentially oversold, short-term bounce possible." ∧
      (calculate_investment_signal bareData (some emptyInd)).confidence = 35) ∧
    ((calculate_investment_signal bareData (some macdZeroInd)).confidence = 43 ∧
      (calculate_investment_signal bareData (some macdZeroInd)).future_outlook =
        "Increasing bullish momentum.") := by
  refine ⟨fun d ind => ?_, fun d ind => ?_, fun d ind => ?_, ⟨?_, ?_, ?_⟩, ?_, ?_⟩
  · unfold calculate_investment_signal
    rcases hmd : d.market_data with _ | md
    · simp only [calcCore, hmd]
    · rcases hcp : md.current_price with _ | cp
      · simp only [calcCore, hmd, hcp]
      · simp only [calcCore, hmd, hcp]
        rw [smaStage1_sma7_zero]
  · unfold calculate_investment_signal
    rcases hmd : d.market_data with _ | md
    · simp only [calcCore, hmd]
    · rcases hcp : md.current_price with _ | cp
      · simp only [calcCore, hmd, hcp]
      · simp only [calcCore, hmd, hcp]
        rw [smaStage1_sma25_zero, smaStage2_sma25_zero]
  · unfold calculate_investment_signal
    rcases hmd : d.market_data with _ | md
    · simp only [calcCore, hmd]
    · rcases hcp : md.current_price with _ | cp
      · simp only [calcCore, hmd, hcp]
      · simp only [calcCore, hmd, hcp]
        rw [smaStage2_sma99_zero]
  · norm_num [calculate_investment_signal, calcCore, bareData, bareMd, rsiZeroInd, emptyInd,
      rsiStage, smaStage1, smaStage2, macdStage, truthy, finishSignal]
  · norm_num [calculate_investment_signal, calcCore, bareData, bareMd, rsiZeroInd, emptyInd,
      rsiStage, smaStage1, smaStage2, macdStage, truthy, finishSignal]
  · norm_num [calculate_investment_signal, calcCore, bareData, bareMd, emptyInd,
      rsiStage, smaStage1, smaStage2, macdStage, truthy, finishSignal]
  · norm_num [calculate_investment_signal, calcCore, bareData, bareMd, macdZeroInd, emptyInd,
      rsiStage, smaStage1, smaStage2, macdStage, truthy, finishSignal,
      show strIn "Neutral" "Neutral outlook." = true from by decide]
  · norm_num [calculate_investment_signal, calcCore, bareData, bareMd, macdZeroInd, emptyInd,
      rsiStage, smaStage1, smaStage2, macdStage, truthy, finishSignal,
      show strIn "Neutral" "Neutral outlook." = true from by decide]


theorem rsiStage_over {r : ℚ} (h : r > 70) (sc : ℤ) (fo : String) :
    rsiStage (some r) sc fo =
      (sc - 10, "Potentially overbought, short-term pullback possible.") := by
  simp only [rsiStage]
  rw [if_pos h]

theorem rsiStage_under {r : ℚ} (h : r < 30) (sc : ℤ) (fo : String) :
    rsiStage (some r) sc fo =
      (sc + 10, "Potentially oversold, short-term bounce possible.") := by
  have hno : ¬ r > 70 := by
    intro hc
    linarith
  simp only [rsiStage]
  rw [if_neg hno, if_pos h]

theorem sma1OutOver (cc : ℚ) (a b : Option ℚ) (sc : ℤ) :
    (smaStage1 cc a b sc "Potentially overbought, short-term pullback possible.").2 =
        "Potentially overbought, short-term pullback possible." ∨
      (smaStage1 cc a b sc "Potentially overbought, short-term pullback possible.").2 =
        "Potentially overbought, short-term pullback possible." ++
          " Strong short-term bearish trend." := by
  unfold smaStage1
  split
  · left
    rfl
  split
  · right
    rfl
  · left
    rfl

theorem sma1OutUnder (cc : ℚ) (a b : Option ℚ) (sc : ℤ) :
    (smaStage1 cc a b sc "Potentially oversold, short-term bounce possible.").2 =
        "Potentially oversold, short-term bounce possible." ∨
      (smaStage1 cc a b sc "Potentially oversold, short-term bounce possible.").2 =
        "Potentially oversold, short-term bounce possible." ++
          " Strong short-term trend." := by
  unfold smaStage1
  split
  · right
    rfl
  split
  · left
    rfl
  · left
    rfl

theorem sma2KeepOver (a b : Option ℚ) (sc : ℤ) (fo : String)
    (hfo : fo = "Potentially overbought, short-term pullback possible." ∨
      fo = "Potentially overbought, short-term pullback possible." ++
        " Strong short-term bearish trend.") :
    (smaStage2 a b sc fo).2 = fo := by
  unfold smaStage2
  split
  · rcases hfo with rfl | rfl <;> rfl
  split
  · rcases hfo with rfl | rfl <;> rfl
  · rfl

theorem sma2KeepUnder (a b : Option ℚ) (sc : ℤ) (fo : String)
    (hfo : fo = "Potentially oversold, short-term bounce possible." ∨
      fo = "Potentially oversold, short-term bounce possible." ++
        " Strong short-term trend.") :
    (smaStage2 a b sc fo).2 = fo := by
  unfold smaStage2
  split
  · rcases hfo with rfl | rfl <;> rfl
  split
  · rcases hfo with rfl | rfl <;> rfl
  · rfl

/-- The outlook component of a successful MACD stage: unchanged, or one of
the two momentum updates. -/
theorem macdStage_ok_snd (m ms dif : Option ℚ) (sc : ℤ) (fo : String) (sf : ℤ × String)
    (h : macdStage m ms dif sc fo = Except.ok sf) :
    sf.2 = fo ∨
      sf.2 = (if strIn "Neutral" fo then "Increasing bullish momentum."
        else fo ++ " Momentum is strengthening.") ∨
      sf.2 = (if strIn "Neutral" fo then "Increasing bearish momentum."
        else fo ++ " Momentum is weakening.") := by
  rcases m with _ | m
  · simp only [macdStage, Except.ok.injEq] at h
    exact Or.inl (by rw [← h])
  rcases ms with _ | ms
  · simp only [macdStage, Except.ok.injEq] at h
    exact Or.inl (by rw [← h])
  rcases dif with _ | dd
  · simp only [macdStage] at h
    split at h
    · exact Except.noConfusion h
    split at h
    · exact Except.noConfusion h
    · simp only [Except.ok.injEq] at h
      exact Or.inl (by rw [← h])
  · simp only [macdStage] at h
    split at h
    · split at h
      · simp only [Except.ok.injEq] at h
        exact Or.inr (Or.inl (by rw [← h]))
      · simp only [Except.ok.injEq] at h
        exact Or.inl (by rw [← h])
    split at h
    · split at h
      · simp only [Except.ok.injEq] at h
        exact Or.inr (Or.inr (by rw [← h]))
      · simp only [Except.ok.injEq] at h
        exact Or.inl (by rw [← h])
    · simp only [Except.ok.injEq] at h
      exact Or.inl (by rw [← h])

theorem macdKeepOver (m ms dif : Option ℚ) (sc : ℤ) (fo : String) (sf : ℤ × String)
    (hfo : fo = "Potentially overbought, short-term pullback possible." ∨
      fo = "Potentially overbought, short-term pullback possible." ++
        " Strong short-term bearish trend.")
    (h : macdStage m ms dif sc fo = Except.ok sf) :
    strIn "Potentially overbought, short-term pullback possible." sf.2 = true := by
  rcases macdStage_ok_snd m ms dif sc fo sf h with hs | hs | hs <;>
    rcases hfo with rfl | rfl <;> rw [hs] <;> decide

theorem macdKeepUnder (m ms dif : Option ℚ) (sc : ℤ) (fo : String) (sf : ℤ × String)
    (hfo : fo = "Potentially oversold, short-term bounce possible." ∨
      fo = "Potentially oversold, short-term bounce possible." ++
        " Strong short-term trend.")
    (h : macdStage m ms dif sc fo = Except.ok sf) :
    strIn "Potentially oversold, short-term bounce possible." sf.2 = true := by
  rcases macdStage_ok_snd m ms dif sc fo sf h with hs | hs | hs <;>
    rcases hfo with rfl | rfl <;> rw [hs] <;> decide

theorem pipelineOver (cc : ℚ) (s7 s25 s99 m ms dif : Option ℚ) (sc : ℤ) (sf : ℤ × String)
    (h : macdStage m ms dif
        (smaStage2 s25 s99
          (smaStage1 cc s7 s25 sc "Potentially overbought, short-term pullback possible.").1
          (smaStage1 cc s7 s25 sc "Potentially overbought, short-term pullback possible.").2).1
        (smaStage2 s25 s99
          (smaStage1 cc s7 s25 sc "Potentially overbought, short-term pullback possible.").1
          (smaStage1 cc s7 s25 sc "Potentially overbought, short-term pullback possible.").2).2 =
      Except.ok sf) :
    strIn "Potentially overbought, short-term pullback possible." sf.2 = true := by
  have h1 := sma1OutOver cc s7 s25 sc
  have h2 := sma2KeepOver s25 s99
    (smaStage1 cc s7 s25 sc "Potentially overbought, short-term pullback possible.").1
    (smaStage1 cc s7 s25 sc "Potentially overbought, short-term pullback possible.").2 h1
  refine macdKeepOver m ms dif _ _ sf ?_ h
  rw [h2]
  exact h1

theorem pipelineUnder (cc : ℚ) (s7 s25 s99 m ms dif : Option ℚ) (sc : ℤ) (sf : ℤ × String)
    (h : macdStage m ms dif
        (smaStage2 s25 s99
          (smaStage1 cc s7 s25 sc "Potentially oversold, short-term bounce possible.").1
          (smaStage1 cc s7 s25 sc "Potentially oversold, short-term bounce possible.").2).1
        (smaStage2 s25 s99
          (smaStage1 cc s7 s25 sc "Potentially oversold, short-term bounce possible.").1
          (smaStage1 cc s7 s25 sc "Potentially oversold, short-term bounce possible.").2).2 =
      Except.ok sf) :
    strIn "Potentially oversold, short-term bounce possible." sf.2 = true := by
  have h1 := sma1OutUnder cc s7 s25 sc
  have h2 := sma2KeepUnder s25 s99
    (smaStage1 cc s7 s25 sc "Potentially oversold, short-term bounce possible.").1
    (smaStage1 cc s7 s25 sc "Potentially oversold, short-term bounce possible.").2 h1
  refine macdKeepUnder m ms dif _ _ sf ?_ h
  rw [h2]
  exact h1

/-- C8: once the RSI rule has set the outlook to its overbought or oversold
phrase, no later moving-average or MACD rule overwrites it — they leave the
outlook unchanged or append to it, so the RSI phrase survives as a substring
of the returned outlook. -/
theorem c8_rsi_precedence :
    ∀ (d : CoinData) (ind : Indicators) (r : ℚ) (s : Signal),
      ind.rsi = some r → calcCore d (some ind) = Except.ok s →
      (r > 70 →
        strIn "Potentially overbought, short-term pullback possible." s.future_outlook = true) ∧
      (r < 30 →
        strIn "Potentially oversold, short-term bounce possible." s.future_outlook = true) := by
  intro d ind r s hr hok
  rcases hmd : d.market_data with _ | md
  · simp only [calcCore, hmd] at hok
    exact Except.noConfusion hok
  simp only [calcCore, hmd] at hok
  rcases hcp : md.current_price with _ | cp
  · simp only [hcp] at hok
    exact Except.noConfusion hok
  simp only [hcp] at hok
  rw [hr] at hok
  constructor
  · intro h70
    rw [rsiStage_over h70] at hok
    split at hok
    · exact Except.noConfusion hok
    · rename_i sf heq
      simp only [Except.ok.injEq] at hok
      rw [← hok, finishSignal_outlook]
      exact pipelineOver _ _ _ _ _ _ _ _ sf heq
  · intro h30
    rw [rsiStage_under h30] at hok
    split at hok
    · exact Except.noConfusion hok
    · rename_i sf heq
      simp only [Except.ok.injEq] at hok
      rw [← hok, finishSignal_outlook]
      exact pipelineUnder _ _ _ _ _ _ _ _ sf heq

theorem c8_witness :
    strIn "Potentially oversold, short-term bounce possible."
      (calculate_investment_signal bareData (some rsiZeroInd)).future_outlook = true :=
  (c8_rsi_precedence bareData rsiZeroInd 0
    (calculate_investment_signal bareData (some rsiZeroInd)) rfl
    (by norm_num [calculate_investment_signal, calcCore, bareData, bareMd, rsiZeroInd, emptyInd,
      rsiStage, smaStage1, smaStage2, macdStage, truthy, finishSignal])).2 (by norm_num)

end CryptoScope
